import Mathlib

/-!
# Verification of the GetMetDataYama weather-data app

Shallow embedding of `src/weather_days_KOA2_app.py`.

The program has two parts:

* a location registry (`load_locations`, `save_locations`, and the
  "地点を追加" button handler) persisting a Python dict
  `{name : [lat, lon]}` to a JSON file `locations.json`;
* a fetch pipeline (the "データを取得" button handler) that, after two
  precondition checks, calls the external collaborator
  `amd.GetMetData(code, itsu, doko, cli)` twice per selected variable,
  assembles a pandas DataFrame, and renders it.

Modelling conventions:

* Python dicts are ordered association lists `List (String × α)` with
  dict-assignment semantics (`dictInsert`: update in place when the key is
  present, append otherwise) and `{**a, **b}` merge (`dictMerge`).
* Coordinates and data values are `Rat` (the program does no float
  arithmetic on them; they are passed through, so exact rationals are a
  faithful carrier for the decimal literals).
* Dates are `Nat` day ordinals; `str(date)` is modelled by `toString`,
  which is injective like the ISO rendering.
* The external `amd.GetMetData` is an oracle `FetchArgs → Except String
  (List Rat × List Nat)` returning the single-point series
  `data[:, 0, 0]` and the time axis `tim` (the two further return
  components are discarded by the program); a raised exception is
  `.error msg` with `msg` the exception text `str(e)`.
  `pd.to_datetime` on the time axis is the identity on this carrier.
* The file system is the content of `locations.json`: `absent`, a
  well-formed JSON object (an ordered list of key/value entries, which is
  what `json.dump(..., ensure_ascii=False, indent=2)` writes and
  `json.load` reads back), or `malformed`. File effects are recorded as
  an explicit operation trace (`FsOp`) interpreted by `applyFsOp`.
-/

/-- Python dict assignment `d[k] = v`: if `k` is already a key, the value
is replaced in place (position kept); otherwise the entry is appended. -/
def dictInsert {α : Type} (d : List (String × α)) (k : String) (v : α) :
    List (String × α) :=
  if d.any (fun p => p.1 == k) then
    d.map (fun p => if p.1 == k then (k, v) else p)
  else
    d ++ [(k, v)]

/-- Python dict lookup `d[k]` (as an `Option`). -/
def dictLookup {α : Type} (d : List (String × α)) (k : String) : Option α :=
  (d.find? (fun p => p.1 == k)).map Prod.snd

/-- Python dict merge `{**a, **b}`: start from `a` and assign every entry
of `b` in order. -/
def dictMerge {α : Type} (a b : List (String × α)) : List (String × α) :=
  b.foldl (fun d p => dictInsert d p.1 p.2) a

/-- A dict proper: its keys are pairwise distinct. Every value produced by
Python dict operations satisfies this. -/
abbrev IsDict {α : Type} (d : List (String × α)) : Prop :=
  (d.map Prod.fst).Nodup

/-- The location mapping held in `st.session_state.location_history`:
site name → `[lat, lon]` (a JSON array of numbers). -/
abbrev Locations := List (String × List Rat)

/-- `DEFAULT_LOCATIONS` (lines 14–22): the hardcoded seven mountain
sites used when `locations.json` does not exist. -/
def DEFAULT_LOCATIONS : Locations :=
  [("KOA山1（洗馬、標高1035m）", [36.10615778, 137.8787694]),
   ("KOA山2（洗馬、標高1017m）", [36.10599167, 137.8787083]),
   ("KOA山3（洗馬、標高1007m）", [36.10616111, 137.8790889]),
   ("KOA山4（洗馬、標高1005m）", [36.10617778, 137.8789667]),
   ("KOA5WW（West Wing、標高783ｍ）", [35.89755278, 137.9560553]),
   ("KOA6（手良、標高806ｍ）", [35.87172194, 138.0164028]),
   ("KOA7（手良、標高791ｍ）", [35.87127222, 138.0160833])]

/-- The content of `locations.json` on disk, at parse-tree level: the
file is absent, holds a JSON object (an ordered list of entries — what
`json.dump` of a dict writes), or holds text that does not parse. -/
inductive JsonFile where
  | absent
  | object (entries : Locations)
  | malformed
deriving DecidableEq, Repr

/-- A file-system effect performed by the program. -/
inductive FsOp where
  | checkExists
  | readFile
  | writeFile (content : JsonFile)
deriving DecidableEq, Repr

/-- Interpret one file operation on the file state: reads and existence
checks leave the file unchanged, a write replaces its content. -/
def applyFsOp (fs : JsonFile) : FsOp → JsonFile
  | .checkExists => fs
  | .readFile => fs
  | .writeFile c => c

/-- `json.load` on a well-formed object: build a Python dict by assigning
the entries in order (duplicate keys: last wins, first position kept). -/
def jsonLoad (entries : Locations) : Locations :=
  dictMerge [] entries

/-- The exception text of the `json.JSONDecodeError` raised by
`json.load` on malformed input. -/
def jsonDecodeFailureText : String := "JSONDecodeError"

/-- `load_locations()` (lines 25–30): if `locations.json` exists, parse
it (a parse failure raises, modelled as `.error`); otherwise return
`DEFAULT_LOCATIONS`. The second component is the trace of file
operations performed. -/
def load_locations (fs : JsonFile) : Except String Locations × List FsOp :=
  match fs with
  | .absent => (.ok DEFAULT_LOCATIONS, [.checkExists])
  | .object entries => (.ok (jsonLoad entries), [.checkExists, .readFile])
  | .malformed => (.error jsonDecodeFailureText, [.checkExists, .readFile])

/-- `save_locations(locations)` (lines 33–35): `json.dump` the full
mapping to `locations.json`, overwriting it. Returns the file-operation
trace. -/
def save_locations (locations : Locations) : List FsOp :=
  [.writeFile (.object locations)]

/-- Session-state initialization (lines 38–39): the first run of the
script calls `load_locations()` with no exception handler around it, so
a parse error propagates out of the script run. -/
def initLocationHistory (fs : JsonFile) : Except String Locations :=
  (load_locations fs).1

/-- A message surfaced by the add-location form: `st.success` or
`st.warning`. -/
inductive AddMsg where
  | success (text : String)
  | warning (text : String)
deriving DecidableEq, Repr

/-- Result of one press of the 地点を追加 button. -/
structure AddOutcome where
  locations : Locations
  ops : List FsOp
  msg : AddMsg
deriving DecidableEq, Repr

/-- The 地点を追加 button handler (lines 71–77): if the name is truthy
(non-empty) and both coordinates are truthy (non-zero), assign
`location_history[new_name] = [new_lat, new_lon]`, persist with
`save_locations`, and report success; otherwise report a warning and
change nothing. -/
def addLocationButton (locations : Locations) (newName : String)
    (newLat newLon : Rat) : AddOutcome :=
  if newName ≠ "" ∧ newLat ≠ 0 ∧ newLon ≠ 0 then
    let locations' := dictInsert locations newName [newLat, newLon]
    { locations := locations'
      ops := save_locations locations'
      msg := .success ("地点「" ++ newName ++ "」を追加しました。") }
  else
    { locations := locations
      ops := []
      msg := .warning "地点名、緯度、経度をすべて入力してください。" }

/-- `ELEMENT_OPTIONS` (lines 42–58): label (with code in parentheses) →
variable code, in source order. -/
def ELEMENT_OPTIONS : List (String × String) :=
  [("日平均気温 (TMP_mea)", "TMP_mea"),
   ("日最高気温 (TMP_max)", "TMP_max"),
   ("日最低気温 (TMP_min)", "TMP_min"),
   ("降水量 (APCP)", "APCP"),
   ("降水量高精度 (APCPRA)", "APCPRA"),
   ("降水の有無 (OPR)", "OPR"),
   ("日照時間 (SSD)", "SSD"),
   ("全天日射量 (GSR)", "GSR"),
   ("下向き長波放射量 (DLR)", "DLR"),
   ("相対湿度 (RH)", "RH"),
   ("風速 (WIND)", "WIND"),
   ("積雪深 (SD)", "SD"),
   ("積雪水量 (SWE)", "SWE"),
   ("降雪水量 (SFW)", "SFW"),
   ("予報気温の確からしさ (PTMP)", "PTMP")]

/-- The argument tuple of one call to the external collaborator
`amd.GetMetData(element, itsu, doko, cli=...)`. -/
structure FetchArgs where
  element : String
  itsu : List String
  doko : List Rat
  cli : Bool
deriving DecidableEq, Repr

/-- The external collaborator `amd.GetMetData`, as an oracle: it either
returns the single-point observed series `data[:, 0, 0]` together with
the time axis `tim`, or raises an exception with the given text. -/
abbrev GetMetDataOracle := FetchArgs → Except String (List Rat × List Nat)

/-- The fetch loop (lines 108–115): for each label in selection order,
look up its code (`ELEMENT_OPTIONS[label]`, a `KeyError` if absent),
issue the observed fetch (`cli=False`), record the series under
`label + "（AMD）"`, issue the normals fetch (`cli=True`), record it
under `label + "（平年値）"`, and on the first iteration capture the
observed time axis as `tim_ref`. Returns the trace of issued external
calls together with the outcome; an exception stops the loop at once. -/
def fetchLoop (g : GetMetDataOracle) (itsu : List String) (doko : List Rat) :
    List String → List (String × List Rat) → List (String × List Rat) →
    Option (List Nat) →
    List FetchArgs ×
      Except String (List (String × List Rat) × List (String × List Rat) ×
        Option (List Nat))
  | [], records, normals, timRef => ([], .ok (records, normals, timRef))
  | label :: rest, records, normals, timRef =>
    match dictLookup ELEMENT_OPTIONS label with
    | none => ([], .error ("KeyError: " ++ label))
    | some elem =>
      let obsArgs : FetchArgs := ⟨elem, itsu, doko, false⟩
      match g obsArgs with
      | .error e => ([obsArgs], .error e)
      | .ok (data, tim) =>
        let records' := dictInsert records (label ++ "（AMD）") data
        let cliArgs : FetchArgs := ⟨elem, itsu, doko, true⟩
        match g cliArgs with
        | .error e => ([obsArgs, cliArgs], .error e)
        | .ok (normData, _) =>
          let normals' := dictInsert normals (label ++ "（平年値）") normData
          let timRef' := match timRef with
            | none => some tim
            | some t => some t
          let next := fetchLoop g itsu doko rest records' normals' timRef'
          (obsArgs :: cliArgs :: next.1, next.2)

/-- A DataFrame column: the inserted date column (holding `tim_ref`,
an `Option` exactly as in the code) or a numeric series column. -/
inductive Col where
  | dates (vals : Option (List Nat))
  | series (vals : List Rat)
deriving DecidableEq, Repr

/-- What one press of the データを取得 button displays: a single
`st.error` message, or the assembled DataFrame (name/column pairs in
column order). -/
inductive FetchOutcome where
  | shownError (msg : String)
  | shownTable (df : List (String × Col))
deriving DecidableEq, Repr

/-- The データを取得 button handler (lines 95–140): precondition checks,
then (inside `try`) the fetch loop, the DataFrame assembly
`pd.DataFrame({**records, **normals})` followed by
`df.insert(0, "日付", tim_ref)`, and the rendering; any exception is
caught and shown as `エラーが発生しました: {e}`. Returns the trace of
external calls issued and what is displayed. -/
def dataFetchButton (g : GetMetDataOracle) (lat lon : Rat)
    (startDate endDate : Nat) (selectedLabels : List String) :
    List FetchArgs × FetchOutcome :=
  if startDate ≥ endDate then
    ([], .shownError "終了日は開始日より後の日付にしてください。")
  else if selectedLabels.isEmpty then
    ([], .shownError "1つ以上の気象要素を選択してください。")
  else
    let itsu := [toString startDate, toString endDate]
    let doko := [lat, lat, lon, lon]
    match fetchLoop g itsu doko selectedLabels [] [] none with
    | (calls, .error e) =>
      (calls, .shownError ("エラーが発生しました: " ++ e))
    | (calls, .ok (records, normals, timRef)) =>
      let df := ("日付", Col.dates timRef) ::
        (dictMerge records normals).map (fun p => (p.1, Col.series p.2))
      (calls, .shownTable df)

/-- The two external calls the loop body issues for one label: the
observed fetch (`cli=False`) then the normals fetch (`cli=True`), with
identical other arguments; no call is issued for an unknown label. -/
def callsFor (itsu : List String) (doko : List Rat) (label : String) :
    List FetchArgs :=
  match dictLookup ELEMENT_OPTIONS label with
  | none => []
  | some c => [⟨c, itsu, doko, false⟩, ⟨c, itsu, doko, true⟩]

/-- Effect of one Python dict assignment on the key list. -/
def keyAssign (ks : List String) (k : String) : List String :=
  if k ∈ ks then ks else ks ++ [k]

/-- Effect of a sequence of dict assignments on the key list. -/
def foldKeys (ks : List String) : List String → List String
  | [] => ks
  | k :: rest => foldKeys (keyAssign ks k) rest

/-- `needle` occurs verbatim inside `hay`. -/
def containsText (hay needle : String) : Prop :=
  ∃ p q, hay = p ++ (needle ++ q)

/-- Test oracle: every fetch succeeds; observed fetches return series
`[1]` on date axis `[7]`, normals fetches return `[2]` on axis `[9]`. -/
def oracleOk : GetMetDataOracle :=
  fun a => if a.cli then .ok ([2], [9]) else .ok ([1], [7])

/-- Test oracle simulating `RuntimeError("timeout")` raised on the
second external call (the first normals fetch); the first (observed)
fetch succeeds. -/
def oracleTimeoutOnCli : GetMetDataOracle :=
  fun a => if a.cli then .error "timeout" else .ok ([1], [7])

/-- Two selected variable labels, in selection order. -/
def twoLabels : List String := ["日平均気温 (TMP_mea)", "風速 (WIND)"]

/-- The table `dataFetchButton oracleOk 1 2 0 1 twoLabels` assembles. -/
def twoLabelsDf : List (String × Col) :=
  [("日付", Col.dates (some [7])),
   ("日平均気温 (TMP_mea)（AMD）", Col.series [1]),
   ("風速 (WIND)（AMD）", Col.series [1]),
   ("日平均気温 (TMP_mea)（平年値）", Col.series [2]),
   ("風速 (WIND)（平年値）", Col.series [2])]

/-! ## Dictionary lemmas -/

theorem any_key_iff {α : Type} (d : List (String × α)) (k : String) :
    d.any (fun p => p.1 == k) = true ↔ k ∈ d.map Prod.fst := by
  simp [List.any_eq_true, List.mem_map, beq_iff_eq]

theorem dictInsert_keys {α : Type} (d : List (String × α)) (k : String) (v : α) :
    (dictInsert d k v).map Prod.fst = keyAssign (d.map Prod.fst) k := by
  unfold dictInsert keyAssign
  by_cases h : k ∈ d.map Prod.fst
  · rw [if_pos ((any_key_iff d k).mpr h), if_pos h, List.map_map]
    refine List.map_congr_left ?_
    intro p _
    by_cases hp : p.1 = k
    · simp [Function.comp, hp]
    · simp [Function.comp, hp]
  · rw [if_neg (fun hc => h ((any_key_iff d k).mp hc)), if_neg h, List.map_append]
    rfl

theorem dictInsert_of_fresh {α : Type} {d : List (String × α)} {k : String}
    (v : α) (h : k ∉ d.map Prod.fst) : dictInsert d k v = d ++ [(k, v)] := by
  unfold dictInsert
  rw [if_neg (fun hc => h ((any_key_iff d k).mp hc))]

theorem isDict_dictInsert {α : Type} {d : List (String × α)} (k : String)
    (v : α) (h : IsDict d) : IsDict (dictInsert d k v) := by
  unfold IsDict
  rw [dictInsert_keys]
  unfold keyAssign
  by_cases hk : k ∈ d.map Prod.fst
  · rwa [if_pos hk]
  · rw [if_neg hk]
    refine List.Nodup.append h (List.nodup_singleton k) ?_
    intro a ha hc
    rw [List.mem_singleton] at hc
    exact hk (hc ▸ ha)

theorem find?_map_update {α : Type} (v : α) :
    ∀ (d : List (String × α)) (k : String),
    d.any (fun p => p.1 == k) = true →
    (d.map (fun p => if p.1 == k then (k, v) else p)).find?
      (fun p => p.1 == k) = some (k, v)
  | [], _, h => by simp at h
  | p :: rest, k, h => by
    by_cases hp : p.1 = k
    · simp only [List.map_cons, if_pos ((beq_iff_eq).mpr hp)]
      exact List.find?_cons_of_pos _ (by simp)
    · have hb : (p.1 == k) = false := by
        simp [hp]
      simp only [List.map_cons, if_neg (by simp [hp] : ¬ (p.1 == k) = true)]
      rw [List.find?_cons_of_neg _ (by simp [hp])]
      refine find?_map_update v rest k ?_
      simpa [List.any_cons, hb] using h

theorem find?_append_fresh {α : Type} (v : α) :
    ∀ (d : List (String × α)) (k : String),
    d.any (fun p => p.1 == k) = false →
    (d ++ [(k, v)]).find? (fun p => p.1 == k) = some (k, v)
  | [], k, _ => by
    simp only [List.nil_append]
    exact List.find?_cons_of_pos _ (by simp)
  | p :: rest, k, h => by
    simp only [List.any_cons, Bool.or_eq_false_iff] at h
    rw [List.cons_append, List.find?_cons_of_neg _ (by simp [h.1])]
    exact find?_append_fresh v rest k h.2

theorem dictLookup_dictInsert_self {α : Type} (d : List (String × α))
    (k : String) (v : α) : dictLookup (dictInsert d k v) k = some v := by
  unfold dictLookup dictInsert
  by_cases h : d.any (fun p => p.1 == k) = true
  · rw [if_pos h, find?_map_update v d k h]
    rfl
  · rw [if_neg h, find?_append_fresh v d k (Bool.eq_false_iff.mpr h)]
    rfl

theorem dictMerge_of_fresh {α : Type} :
    ∀ (b a : List (String × α)),
    (∀ k ∈ b.map Prod.fst, k ∉ a.map Prod.fst) →
    (b.map Prod.fst).Nodup → dictMerge a b = a ++ b
  | [], a, _, _ => by simp [dictMerge]
  | (k, v) :: rest, a, hfresh, hnd => by
    have hk : k ∉ a.map Prod.fst := hfresh k (by simp)
    have hstep : dictMerge a ((k, v) :: rest) =
        dictMerge (dictInsert a k v) rest := rfl
    rw [hstep, dictInsert_of_fresh v hk]
    simp only [List.map_cons, List.nodup_cons] at hnd
    have hrest : ∀ k' ∈ rest.map Prod.fst,
        k' ∉ (a ++ [(k, v)]).map Prod.fst := by
      intro k' hk'
      simp only [List.map_append, List.mem_append]
      rintro (hc | hc)
      · exact hfresh k' (by simp [hk']) hc
      · simp only [List.map_cons, List.map_nil, List.mem_singleton] at hc
        exact hnd.1 (hc ▸ hk')
    rw [dictMerge_of_fresh rest (a ++ [(k, v)]) hrest hnd.2]
    simp

theorem jsonLoad_of_isDict {d : Locations} (h : IsDict d) : jsonLoad d = d := by
  unfold jsonLoad
  rw [dictMerge_of_fresh d [] (by simp) h]
  rfl

/-! ## String-suffix lemmas

The observed and normals column names are built by appending the fixed
suffixes `（AMD）` and `（平年値）` to the label; appending a fixed suffix
is injective, and the two suffixes have equal length but differ, so the
two key families never collide. -/

theorem strAppend_right_cancel {a b s : String} (h : a ++ s = b ++ s) :
    a = b := by
  have hd : a.data ++ s.data = b.data ++ s.data := by
    have := congrArg String.data h
    simpa [String.data_append] using this
  exact String.ext (List.append_cancel_right hd)

theorem strAppend_suffix_injective (s : String) :
    Function.Injective (fun a : String => a ++ s) := by
  intro a b h
  exact strAppend_right_cancel h

theorem amd_key_ne_norm_key (a b : String) :
    a ++ "（AMD）" ≠ b ++ "（平年値）" := by
  intro h
  have hd : a.data ++ "（AMD）".data = b.data ++ "（平年値）".data := by
    have := congrArg String.data h
    simpa [String.data_append] using this
  have hlen : ("（AMD）".data).length = ("（平年値）".data).length := by decide
  have := (List.append_inj' hd hlen).2
  exact absurd this (by decide)

/-! ## Key-fold lemmas -/

theorem foldKeys_of_fresh :
    ∀ (ls ks : List String), (∀ k ∈ ls, k ∉ ks) → ls.Nodup →
    foldKeys ks ls = ks ++ ls
  | [], ks, _, _ => by simp [foldKeys]
  | k :: rest, ks, hfresh, hnd => by
    rw [List.nodup_cons] at hnd
    have hk : k ∉ ks := hfresh k (by simp)
    have hstep : foldKeys ks (k :: rest) = foldKeys (keyAssign ks k) rest := rfl
    rw [hstep]
    unfold keyAssign
    rw [if_neg hk]
    have hrest : ∀ k' ∈ rest, k' ∉ ks ++ [k] := by
      intro k' hk'
      simp only [List.mem_append, List.mem_singleton]
      rintro (hc | hc)
      · exact hfresh k' (by simp [hk']) hc
      · exact hnd.1 (hc ▸ hk')
    rw [foldKeys_of_fresh rest (ks ++ [k]) hrest hnd.2]
    simp

/-! ## Fetch-loop lemmas -/

theorem fetchLoop_ok_spec (g : GetMetDataOracle) (itsu : List String)
    (doko : List Rat) :
    ∀ (labels : List String) (records normals : List (String × List Rat))
      (timRef : Option (List Nat)) (calls : List FetchArgs)
      (records' normals' : List (String × List Rat))
      (timRef' : Option (List Nat)),
    fetchLoop g itsu doko labels records normals timRef =
      (calls, .ok (records', normals', timRef')) →
    records'.map Prod.fst =
        foldKeys (records.map Prod.fst) (labels.map (· ++ "（AMD）"))
    ∧ normals'.map Prod.fst =
        foldKeys (normals.map Prod.fst) (labels.map (· ++ "（平年値）"))
    ∧ calls = labels.flatMap (callsFor itsu doko)
    ∧ (∀ t, timRef = some t → timRef' = some t)
    ∧ (∀ lab ∈ labels, (dictLookup ELEMENT_OPTIONS lab).isSome)
  | [], records, normals, timRef, calls, records', normals', timRef', h => by
    simp only [fetchLoop, Prod.mk.injEq, Except.ok.injEq] at h
    obtain ⟨rfl, rfl, rfl, rfl⟩ := h
    simp [foldKeys]
  | label :: rest, records, normals, timRef, calls, records', normals', timRef', h => by
    simp only [fetchLoop] at h
    cases hl : dictLookup ELEMENT_OPTIONS label with
    | none =>
      rw [hl] at h
      simp at h
    | some elem =>
      rw [hl] at h
      simp only at h
      cases hobs : g ⟨elem, itsu, doko, false⟩ with
      | error e =>
        rw [hobs] at h
        simp at h
      | ok obsRes =>
        obtain ⟨data, tim⟩ := obsRes
        rw [hobs] at h
        simp only at h
        cases hcli : g ⟨elem, itsu, doko, true⟩ with
        | error e =>
          rw [hcli] at h
          simp at h
        | ok cliRes =>
          obtain ⟨normData, ntim⟩ := cliRes
          rw [hcli] at h
          simp only at h
          cases timRef with
          | none =>
            cases hnext : fetchLoop g itsu doko rest
                (dictInsert records (label ++ "（AMD）") data)
                (dictInsert normals (label ++ "（平年値）") normData)
                (some tim) with
            | mk calls₂ res₂ =>
              rw [hnext] at h
              simp only [Prod.mk.injEq] at h
              obtain ⟨rfl, hres⟩ := h
              obtain ⟨h1, h2, h3, _, h5⟩ :=
                fetchLoop_ok_spec g itsu doko rest _ _ _ _ _ _ _
                  (hnext.trans (by rw [hres]))
              refine ⟨?_, ?_, ?_, ?_, ?_⟩
              · rw [h1, dictInsert_keys, List.map_cons]
                rfl
              · rw [h2, dictInsert_keys, List.map_cons]
                rfl
              · rw [List.flatMap_cons, h3]
                simp [callsFor, hl]
              · intro t ht
                exact absurd ht (by simp)
              · intro lab hlab
                rcases List.mem_cons.mp hlab with rfl | hlab
                · simp [hl]
                · exact h5 lab hlab
          | some t0 =>
            cases hnext : fetchLoop g itsu doko rest
                (dictInsert records (label ++ "（AMD）") data)
                (dictInsert normals (label ++ "（平年値）") normData)
                (some t0) with
            | mk calls₂ res₂ =>
              rw [hnext] at h
              simp only [Prod.mk.injEq] at h
              obtain ⟨rfl, hres⟩ := h
              obtain ⟨h1, h2, h3, h4, h5⟩ :=
                fetchLoop_ok_spec g itsu doko rest _ _ _ _ _ _ _
                  (hnext.trans (by rw [hres]))
              refine ⟨?_, ?_, ?_, ?_, ?_⟩
              · rw [h1, dictInsert_keys, List.map_cons]
                rfl
              · rw [h2, dictInsert_keys, List.map_cons]
                rfl
              · rw [List.flatMap_cons, h3]
                simp [callsFor, hl]
              · intro t ht
                rw [Option.some_inj] at ht
                exact ht ▸ h4 t0 rfl
              · intro lab hlab
                rcases List.mem_cons.mp hlab with rfl | hlab
                · simp [hl]
                · exact h5 lab hlab

theorem fetchLoop_first_timRef (g : GetMetDataOracle) (itsu : List String)
    (doko : List Rat) (label : String) (rest : List String)
    (records normals : List (String × List Rat)) (calls : List FetchArgs)
    (records' normals' : List (String × List Rat))
    (timRef' : Option (List Nat))
    (h : fetchLoop g itsu doko (label :: rest) records normals none =
      (calls, .ok (records', normals', timRef'))) :
    ∃ c data tim, dictLookup ELEMENT_OPTIONS label = some c ∧
      g ⟨c, itsu, doko, false⟩ = .ok (data, tim) ∧ timRef' = some tim := by
  simp only [fetchLoop] at h
  cases hl : dictLookup ELEMENT_OPTIONS label with
  | none =>
    rw [hl] at h
    simp at h
  | some elem =>
    rw [hl] at h
    simp only at h
    cases hobs : g ⟨elem, itsu, doko, false⟩ with
    | error e =>
      rw [hobs] at h
      simp at h
    | ok obsRes =>
      obtain ⟨data, tim⟩ := obsRes
      rw [hobs] at h
      simp only at h
      cases hcli : g ⟨elem, itsu, doko, true⟩ with
      | error e =>
        rw [hcli] at h
        simp at h
      | ok cliRes =>
        obtain ⟨normData, ntim⟩ := cliRes
        rw [hcli] at h
        simp only at h
        cases hnext : fetchLoop g itsu doko rest
            (dictInsert records (label ++ "（AMD）") data)
            (dictInsert normals (label ++ "（平年値）") normData)
            (some tim) with
        | mk calls₂ res₂ =>
          rw [hnext] at h
          simp only [Prod.mk.injEq] at h
          obtain ⟨rfl, hres⟩ := h
          obtain ⟨_, _, _, h4, _⟩ :=
            fetchLoop_ok_spec g itsu doko rest _ _ _ _ _ _ _
              (hnext.trans (by rw [hres]))
          exact ⟨elem, data, tim, rfl, hobs, h4 tim rfl⟩

theorem dataFetchButton_table_inv (g : GetMetDataOracle) (lat lon : Rat)
    (startDate endDate : Nat) (labels : List String)
    (calls : List FetchArgs) (df : List (String × Col))
    (h : dataFetchButton g lat lon startDate endDate labels =
      (calls, .shownTable df)) :
    ¬ startDate ≥ endDate ∧ labels ≠ [] ∧
    ∃ records normals timRef,
      fetchLoop g [toString startDate, toString endDate]
        [lat, lat, lon, lon] labels [] [] none =
        (calls, .ok (records, normals, timRef)) ∧
      df = ("日付", Col.dates timRef) ::
        (dictMerge records normals).map (fun p => (p.1, Col.series p.2)) := by
  unfold dataFetchButton at h
  by_cases hse : startDate ≥ endDate
  · rw [if_pos hse] at h
    simp at h
  · rw [if_neg hse] at h
    by_cases hne : labels.isEmpty
    · rw [if_pos hne] at h
      simp at h
    · rw [if_neg hne] at h
      simp only at h
      refine ⟨hse, fun hc => hne (by simp [hc]), ?_⟩
      cases hfl : fetchLoop g [toString startDate, toString endDate]
          [lat, lat, lon, lon] labels [] [] none with
      | mk calls₂ res₂ =>
        rw [hfl] at h
        cases res₂ with
        | error e =>
          simp at h
        | ok val =>
          obtain ⟨records, normals, timRef⟩ := val
          simp only [Prod.mk.injEq, FetchOutcome.shownTable.injEq] at h
          obtain ⟨rfl, rfl⟩ := h
          exact ⟨records, normals, timRef, rfl, rfl⟩

/-! ## Claims -/

/-- C1: for every successful run of the pipeline with N selected
variables (N ≥ 1, labels pairwise distinct as the multiselect
guarantees), the assembled result table has exactly 1 + 2N columns: the
captured date column in position 0, then the N observed （AMD） columns
in selection order, then the N normals （平年値） columns in selection
order — all observed columns precede all normals columns. -/
theorem C1_result_table_shape (g : GetMetDataOracle) (lat lon : Rat)
    (startDate endDate : Nat) (labels : List String)
    (df : List (String × Col)) (hnd : labels.Nodup)
    (h : (dataFetchButton g lat lon startDate endDate labels).2 =
      .shownTable df) :
    df.map Prod.fst =
      "日付" :: (labels.map (· ++ "（AMD）") ++ labels.map (· ++ "（平年値）"))
    ∧ df.length = 1 + 2 * labels.length
    ∧ 1 ≤ labels.length := by
  have hpair : dataFetchButton g lat lon startDate endDate labels =
      ((dataFetchButton g lat lon startDate endDate labels).1,
        .shownTable df) := by
    rw [← h]
  obtain ⟨hse, hne, records, normals, timRef, hfl, hdf⟩ :=
    dataFetchButton_table_inv g lat lon startDate endDate labels _ df hpair
  obtain ⟨h1, h2, _, _, _⟩ :=
    fetchLoop_ok_spec g _ _ labels [] [] none _ _ _ _ hfl
  have hamdnd : (labels.map (· ++ "（AMD）")).Nodup :=
    hnd.map (strAppend_suffix_injective _)
  have hnormnd : (labels.map (· ++ "（平年値）")).Nodup :=
    hnd.map (strAppend_suffix_injective _)
  have hrk : records.map Prod.fst = labels.map (· ++ "（AMD）") := by
    rw [h1]
    simpa using foldKeys_of_fresh (labels.map (· ++ "（AMD）")) []
      (by simp) hamdnd
  have hnk : normals.map Prod.fst = labels.map (· ++ "（平年値）") := by
    rw [h2]
    simpa using foldKeys_of_fresh (labels.map (· ++ "（平年値）")) []
      (by simp) hnormnd
  have hfresh : ∀ k ∈ normals.map Prod.fst, k ∉ records.map Prod.fst := by
    rw [hrk, hnk]
    intro k hk hc
    simp only [List.mem_map] at hk hc
    obtain ⟨b, _, rfl⟩ := hk
    obtain ⟨a, _, hac⟩ := hc
    exact amd_key_ne_norm_key a b hac
  have hmerge : dictMerge records normals = records ++ normals :=
    dictMerge_of_fresh normals records hfresh (by rw [hnk]; exact hnormnd)
  have hrlen : records.length = labels.length := by
    have := congrArg List.length hrk
    simpa using this
  have hnlen : normals.length = labels.length := by
    have := congrArg List.length hnk
    simpa using this
  have hlpos : 0 < labels.length := List.length_pos.mpr hne
  subst hdf
  refine ⟨?_, ?_, hlpos⟩
  · rw [hmerge, List.map_cons, List.map_map]
    have : (Prod.fst ∘ fun p : String × List Rat => (p.1, Col.series p.2)) =
        Prod.fst := rfl
    rw [this, List.map_append, hrk, hnk]
  · rw [hmerge]
    simp only [List.length_cons, List.length_map, List.length_append]
    omega

/-- Witness for C1 at a concrete input: two selected variables, every
fetch succeeding, give a five-column table in the stated order. -/
theorem C1_result_table_shape_witness :
    twoLabels.Nodup ∧
    (dataFetchButton oracleOk 1 2 0 1 twoLabels).2 =
      .shownTable twoLabelsDf ∧
    (twoLabelsDf.map Prod.fst =
      "日付" :: (twoLabels.map (· ++ "（AMD）") ++
        twoLabels.map (· ++ "（平年値）"))
    ∧ twoLabelsDf.length = 1 + 2 * twoLabels.length
    ∧ 1 ≤ twoLabels.length) :=
  ⟨by decide, by decide,
    C1_result_table_shape oracleOk 1 2 0 1 twoLabels twoLabelsDf
      (by decide) (by decide)⟩

/-- C2: for a successful run, the trace of external calls is, per
selected label in selection order, exactly the observed fetch
(`cli=False`) followed by the normals fetch (`cli=True`), both with the
code looked up for the label, the `[str(start), str(end)]` window and
the degenerate bounding box `[lat, lat, lon, lon]`; and the date column
of the result is the time axis returned by the first label's observed
fetch (every later axis is discarded). -/
theorem C2_call_trace_and_date_axis (g : GetMetDataOracle) (lat lon : Rat)
    (startDate endDate : Nat) (l : String) (rest : List String)
    (calls : List FetchArgs) (df : List (String × Col))
    (h : dataFetchButton g lat lon startDate endDate (l :: rest) =
      (calls, .shownTable df)) :
    calls = (l :: rest).flatMap
      (callsFor [toString startDate, toString endDate] [lat, lat, lon, lon])
    ∧ (∀ lab ∈ l :: rest, ∃ c, dictLookup ELEMENT_OPTIONS lab = some c ∧
        callsFor [toString startDate, toString endDate]
            [lat, lat, lon, lon] lab =
          [⟨c, [toString startDate, toString endDate],
              [lat, lat, lon, lon], false⟩,
           ⟨c, [toString startDate, toString endDate],
              [lat, lat, lon, lon], true⟩])
    ∧ ∃ c data tim, dictLookup ELEMENT_OPTIONS l = some c ∧
        g ⟨c, [toString startDate, toString endDate],
            [lat, lat, lon, lon], false⟩ = .ok (data, tim) ∧
        df.head? = some ("日付", Col.dates (some tim)) := by
  obtain ⟨hse, hne, records, normals, timRef, hfl, hdf⟩ :=
    dataFetchButton_table_inv g lat lon startDate endDate (l :: rest)
      calls df h
  obtain ⟨_, _, hcalls, _, hfound⟩ :=
    fetchLoop_ok_spec g _ _ (l :: rest) [] [] none _ _ _ _ hfl
  obtain ⟨c, data, tim, hc, hobs, htr⟩ :=
    fetchLoop_first_timRef g _ _ l rest [] [] _ _ _ _ hfl
  refine ⟨hcalls, ?_, c, data, tim, hc, hobs, ?_⟩
  · intro lab hlab
    obtain ⟨c', hc'⟩ := Option.isSome_iff_exists.mp (hfound lab hlab)
    exact ⟨c', hc', by simp [callsFor, hc']⟩
  · rw [hdf, htr]
    rfl

/-- Witness for C2 at a concrete input: two selected variables, every
fetch succeeding; the trace is the four calls in order and the date
column is the first observed fetch's axis `[7]`. -/
theorem C2_call_trace_and_date_axis_witness :
    (dataFetchButton oracleOk 1 2 0 1
        ("日平均気温 (TMP_mea)" :: ["風速 (WIND)"])).1 =
      ("日平均気温 (TMP_mea)" :: ["風速 (WIND)"]).flatMap
        (callsFor [toString 0, toString 1] [1, 1, 2, 2]) ∧
    twoLabelsDf.head? = some ("日付", Col.dates (some [7])) := by
  have hrun : dataFetchButton oracleOk 1 2 0 1
      ("日平均気温 (TMP_mea)" :: ["風速 (WIND)"]) =
      ((dataFetchButton oracleOk 1 2 0 1
        ("日平均気温 (TMP_mea)" :: ["風速 (WIND)"])).1,
        .shownTable twoLabelsDf) := by decide
  obtain ⟨h1, _, c, data, tim, hc, hobs, hhead⟩ :=
    C2_call_trace_and_date_axis oracleOk 1 2 0 1 "日平均気温 (TMP_mea)"
      ["風速 (WIND)"] _ twoLabelsDf hrun
  refine ⟨h1, ?_⟩
  have hc' : c = "TMP_mea" := by
    have : dictLookup ELEMENT_OPTIONS "日平均気温 (TMP_mea)" =
        some "TMP_mea" := by decide
    rw [this] at hc
    exact (Option.some_inj.mp hc).symm
  subst hc'
  have htim : tim = [7] := by
    have hTmp : oracleOk ⟨"TMP_mea", [toString 0, toString 1],
        [1, 1, 2, 2], false⟩ = .ok ([1], [7]) := rfl
    rw [hTmp] at hobs
    have heq : (([1] : List Rat), ([7] : List Nat)) = (data, tim) :=
      Except.ok.inj hobs
    exact ((Prod.ext_iff.mp heq).2).symm
  rw [htim] at hhead
  exact hhead

/-- C3: if some external fetch raises (the loop ends in an exception
with text `e`), no table is produced and the single shown message is the
generic error text with the exception text embedded in it. -/
theorem C3_fetch_exception_no_table (g : GetMetDataOracle) (lat lon : Rat)
    (startDate endDate : Nat) (labels : List String) (e : String)
    (hse : startDate < endDate) (hne : labels ≠ [])
    (herr : (fetchLoop g [toString startDate, toString endDate]
        [lat, lat, lon, lon] labels [] [] none).2 = .error e) :
    (dataFetchButton g lat lon startDate endDate labels).2 =
      .shownError ("エラーが発生しました: " ++ e)
    ∧ (∀ df, (dataFetchButton g lat lon startDate endDate labels).2 ≠
        .shownTable df)
    ∧ containsText ("エラーが発生しました: " ++ e) e := by
  cases hfl : fetchLoop g [toString startDate, toString endDate]
      [lat, lat, lon, lon] labels [] [] none with
  | mk calls res =>
    rw [hfl] at herr
    simp only at herr
    subst herr
    have hrun : dataFetchButton g lat lon startDate endDate labels =
        (calls, .shownError ("エラーが発生しました: " ++ e)) := by
      unfold dataFetchButton
      rw [if_neg (by omega), if_neg (by simp [hne])]
      dsimp only
      rw [hfl]
    refine ⟨by rw [hrun], ?_, ?_⟩
    · intro df hc
      rw [hrun] at hc
      simp at hc
    · exact ⟨"エラーが発生しました: ", "", by rw [String.append_empty]⟩

/-- Witness for C3 at a concrete input: `RuntimeError("timeout")` raised
on the second fetch (the normals fetch of the sole selected variable)
yields the message `エラーが発生しました: timeout` and no table. -/
theorem C3_fetch_exception_no_table_witness :
    ((0 : Nat) < 1 ∧ (["日平均気温 (TMP_mea)"] : List String) ≠ [] ∧
      (fetchLoop oracleTimeoutOnCli [toString 0, toString 1] [1, 1, 2, 2]
        ["日平均気温 (TMP_mea)"] [] [] none).2 = .error "timeout") ∧
    (dataFetchButton oracleTimeoutOnCli 1 2 0 1 ["日平均気温 (TMP_mea)"]).2 =
      .shownError ("エラーが発生しました: " ++ "timeout") ∧
    (∀ df, (dataFetchButton oracleTimeoutOnCli 1 2 0 1
        ["日平均気温 (TMP_mea)"]).2 ≠ .shownTable df) ∧
    containsText ("エラーが発生しました: " ++ "timeout") "timeout" :=
  ⟨⟨by decide, by decide, rfl⟩,
    C3_fetch_exception_no_table oracleTimeoutOnCli 1 2 0 1
      ["日平均気温 (TMP_mea)"] "timeout" (by decide) (by decide) rfl⟩

/-- C4: with `start_date >= end_date` the handler shows the
date-ordering error, and with a valid date order but no selected
variable it shows the select-at-least-one error; in both cases zero
external calls are issued (empty trace) and nothing else happens. -/
theorem C4_precondition_aborts (g : GetMetDataOracle) (lat lon : Rat)
    (startDate endDate : Nat) (labels : List String) :
    (startDate ≥ endDate →
      dataFetchButton g lat lon startDate endDate labels =
        ([], .shownError "終了日は開始日より後の日付にしてください。"))
    ∧ (startDate < endDate → labels = [] →
      dataFetchButton g lat lon startDate endDate labels =
        ([], .shownError "1つ以上の気象要素を選択してください。")) := by
  constructor
  · intro hge
    unfold dataFetchButton
    rw [if_pos hge]
  · intro hlt hnil
    unfold dataFetchButton
    rw [if_neg (by omega), if_pos (by simp [hnil])]

/-- Witness for C4 at concrete inputs: reversed dates, and an empty
selection with valid dates. -/
theorem C4_precondition_aborts_witness :
    dataFetchButton oracleOk 1 2 5 3 twoLabels =
      ([], .shownError "終了日は開始日より後の日付にしてください。") ∧
    dataFetchButton oracleOk 1 2 3 5 [] =
      ([], .shownError "1つ以上の気象要素を選択してください。") :=
  ⟨(C4_precondition_aborts oracleOk 1 2 5 3 twoLabels).1 (by decide),
   (C4_precondition_aborts oracleOk 1 2 3 5 []).2 (by decide) rfl⟩

/-- C5: a valid add (non-empty name, non-zero coordinates) inserts the
entry, immediately persists the full mapping, and a subsequent
`load_locations` from the written file (simulating a restart) returns a
mapping containing `{name: [lat, lon]}`. -/
theorem C5_add_then_load (locations : Locations) (fs : JsonFile)
    (name : String) (lat lon : Rat) (hd : IsDict locations)
    (hn : name ≠ "") (hla : lat ≠ 0) (hlo : lon ≠ 0) :
    (addLocationButton locations name lat lon).locations =
      dictInsert locations name [lat, lon]
    ∧ (addLocationButton locations name lat lon).ops =
      save_locations (dictInsert locations name [lat, lon])
    ∧ (load_locations ((addLocationButton locations name lat lon).ops.foldl
        applyFsOp fs)).1 = .ok (dictInsert locations name [lat, lon])
    ∧ dictLookup (dictInsert locations name [lat, lon]) name =
        some [lat, lon] := by
  have hcond : name ≠ "" ∧ lat ≠ 0 ∧ lon ≠ 0 := ⟨hn, hla, hlo⟩
  unfold addLocationButton
  rw [if_pos hcond]
  refine ⟨rfl, rfl, ?_, dictLookup_dictInsert_self locations name [lat, lon]⟩
  simp only [save_locations, List.foldl_cons, List.foldl_nil, applyFsOp,
    load_locations]
  rw [jsonLoad_of_isDict (isDict_dictInsert name [lat, lon] hd)]

/-- Witness for C5 at a concrete input: adding 高尾山 at (1, 2) on top of
the defaults and reloading yields the entry. -/
theorem C5_add_then_load_witness :
    (IsDict DEFAULT_LOCATIONS ∧ "高尾山" ≠ "" ∧ (1 : Rat) ≠ 0 ∧
      (2 : Rat) ≠ 0) ∧
    (load_locations ((addLocationButton DEFAULT_LOCATIONS "高尾山" 1 2).ops.foldl
        applyFsOp JsonFile.absent)).1 =
      .ok (dictInsert DEFAULT_LOCATIONS "高尾山" [1, 2]) ∧
    dictLookup (dictInsert DEFAULT_LOCATIONS "高尾山" [1, 2]) "高尾山" =
      some [1, 2] :=
  ⟨⟨by decide, by decide, by decide, by decide⟩,
   (C5_add_then_load DEFAULT_LOCATIONS JsonFile.absent "高尾山" 1 2
      (by decide) (by decide) (by decide) (by decide)).2.2.1,
   (C5_add_then_load DEFAULT_LOCATIONS JsonFile.absent "高尾山" 1 2
      (by decide) (by decide) (by decide) (by decide)).2.2.2⟩

/-- C6: an add with an empty name or a zero coordinate leaves the
mapping unchanged, performs no file operation (in particular no write,
so any file state is unchanged), and reports only the validation
warning. -/
theorem C6_add_invalid_no_change (locations : Locations) (fs : JsonFile)
    (name : String) (lat lon : Rat)
    (h : name = "" ∨ lat = 0 ∨ lon = 0) :
    addLocationButton locations name lat lon =
      { locations := locations
        ops := []
        msg := .warning "地点名、緯度、経度をすべて入力してください。" }
    ∧ (addLocationButton locations name lat lon).ops.foldl applyFsOp fs =
        fs := by
  have hcond : ¬ (name ≠ "" ∧ lat ≠ 0 ∧ lon ≠ 0) := by
    rcases h with h | h | h <;> simp [h]
  unfold addLocationButton
  rw [if_neg hcond]
  exact ⟨rfl, rfl⟩

/-- Witness for C6 at a concrete input: empty name, valid coordinates. -/
theorem C6_add_invalid_no_change_witness :
    addLocationButton DEFAULT_LOCATIONS "" 1 2 =
      { locations := DEFAULT_LOCATIONS
        ops := []
        msg := .warning "地点名、緯度、経度をすべて入力してください。" } ∧
    (addLocationButton DEFAULT_LOCATIONS "" 1 2).ops.foldl applyFsOp
      (JsonFile.object [("高尾山", [1, 2])]) =
      JsonFile.object [("高尾山", [1, 2])] :=
  C6_add_invalid_no_change DEFAULT_LOCATIONS
    (JsonFile.object [("高尾山", [1, 2])]) "" 1 2 (Or.inl rfl)

/-- C7: `save_locations` followed by `load_locations` is the identity on
every proper mapping (distinct keys), whatever the previous file state;
non-ASCII keys round-trip exactly (the document model carries strings
verbatim). -/
theorem C7_save_load_roundtrip (M : Locations) (fs : JsonFile)
    (hd : IsDict M) :
    (load_locations ((save_locations M).foldl applyFsOp fs)).1 = .ok M := by
  simp only [save_locations, List.foldl_cons, List.foldl_nil, applyFsOp,
    load_locations]
  rw [jsonLoad_of_isDict hd]

/-- Witness for C7 at a concrete input: a mapping with a non-ASCII key,
written over a malformed previous file. -/
theorem C7_save_load_roundtrip_witness :
    IsDict [("高尾山", [35.625, 139.2437])] ∧
    (load_locations ((save_locations [("高尾山", [35.625, 139.2437])]).foldl
        applyFsOp JsonFile.malformed)).1 =
      .ok [("高尾山", [35.625, 139.2437])] :=
  ⟨by decide,
   C7_save_load_roundtrip [("高尾山", [35.625, 139.2437])]
     JsonFile.malformed (by decide)⟩

/-- C8: when the backing file is absent, `load_locations` returns
exactly the seven default mountain sites with their documented
coordinates — no more, no fewer. -/
theorem C8_load_absent_defaults :
    (load_locations JsonFile.absent).1 = .ok DEFAULT_LOCATIONS
    ∧ DEFAULT_LOCATIONS.length = 7
    ∧ DEFAULT_LOCATIONS.map Prod.fst =
      ["KOA山1（洗馬、標高1035m）", "KOA山2（洗馬、標高1017m）",
       "KOA山3（洗馬、標高1007m）", "KOA山4（洗馬、標高1005m）",
       "KOA5WW（West Wing、標高783ｍ）", "KOA6（手良、標高806ｍ）",
       "KOA7（手良、標高791ｍ）"]
    ∧ dictLookup DEFAULT_LOCATIONS "KOA山1（洗馬、標高1035m）" =
        some [36.10615778, 137.8787694]
    ∧ dictLookup DEFAULT_LOCATIONS "KOA山2（洗馬、標高1017m）" =
        some [36.10599167, 137.8787083]
    ∧ dictLookup DEFAULT_LOCATIONS "KOA山3（洗馬、標高1007m）" =
        some [36.10616111, 137.8790889]
    ∧ dictLookup DEFAULT_LOCATIONS "KOA山4（洗馬、標高1005m）" =
        some [36.10617778, 137.8789667]
    ∧ dictLookup DEFAULT_LOCATIONS "KOA5WW（West Wing、標高783ｍ）" =
        some [35.89755278, 137.9560553]
    ∧ dictLookup DEFAULT_LOCATIONS "KOA6（手良、標高806ｍ）" =
        some [35.87172194, 138.0164028]
    ∧ dictLookup DEFAULT_LOCATIONS "KOA7（手良、標高791ｍ）" =
        some [35.87127222, 138.0160833] := by
  exact ⟨rfl, rfl, rfl, rfl, rfl, rfl, rfl, rfl, rfl, rfl⟩

/-- C9: a malformed backing file makes `load_locations` raise a parse
error; the session initialization does not catch it, so no mapping — in
particular not the default fallback — is produced for that run. -/
theorem C9_malformed_propagates :
    load_locations JsonFile.malformed =
      (.error jsonDecodeFailureText, [.checkExists, .readFile])
    ∧ initLocationHistory JsonFile.malformed = .error jsonDecodeFailureText
    ∧ (initLocationHistory JsonFile.malformed).isOk = false :=
  ⟨rfl, rfl, rfl⟩

/-- Whether a file operation writes the file. -/
def FsOp.isWrite : FsOp → Bool
  | .writeFile _ => true
  | .checkExists => false
  | .readFile => false

/-- C10: `load_locations` performs no write for any initial file state
(absent or present): its operation trace contains no write and leaves
the file exactly as it was; when the file is absent the defaults are
returned without being persisted. -/
theorem C10_load_never_writes (fs : JsonFile) :
    (load_locations fs).2.foldl applyFsOp fs = fs
    ∧ ((load_locations fs).2.filter (fun op => op.isWrite)) = []
    ∧ (load_locations JsonFile.absent).2.foldl applyFsOp JsonFile.absent =
        JsonFile.absent := by
  cases fs <;> exact ⟨rfl, rfl, rfl⟩
